import Mathlib

/-!
Shallow embedding of the dplot LaTeX/pgfplots figure generator
(`dplot/dplot.py`).  Numeric values are modelled as exact rationals;
the Python float constants `sys.float_info.max` and `sys.float_info.min`
are the exact rationals of the corresponding binary64 values.
-/

namespace DPlot

/-- Binary exponentiation on naturals (kernel-friendly: logarithmic depth). -/
def binPowAux : Nat → Nat → Nat → Nat
  | 0, _, _ => 1
  | fuel + 1, b, e =>
      if e = 0 then 1
      else
        let h := binPowAux fuel b (e / 2)
        if e % 2 = 0 then h * h else h * h * b

/-- `b ^ e` on naturals via binary exponentiation. -/
def binPow (b e : Nat) : Nat := binPowAux 64 b e

theorem binPowAux_eq (fuel b e : Nat) (he : e < 2 ^ fuel) : binPowAux fuel b e = b ^ e := by
  induction fuel generalizing e with
  | zero =>
      interval_cases e
      simp [binPowAux]
  | succ n ih =>
      rw [binPowAux]
      by_cases h0 : e = 0
      · simp [h0]
      · simp only [h0, if_false]
        have hlt : e / 2 < 2 ^ n := by
          rw [Nat.div_lt_iff_lt_mul (by norm_num)]
          calc e < 2 ^ (n + 1) := he
          _ = 2 ^ n * 2 := by ring
        rw [ih _ hlt]
        rcases Nat.even_or_odd e with he2 | he2
        · have h2 : e % 2 = 0 := Nat.even_iff.mp he2
          rw [if_pos h2, ← pow_add]
          congr 1
          omega
        · have h2 : e % 2 = 1 := Nat.odd_iff.mp he2
          rw [if_neg (by omega), ← pow_add, ← pow_succ]
          congr 1
          omega

theorem binPow_eq (b e : Nat) (he : e < 2 ^ 64) : binPow b e = b ^ e :=
  binPowAux_eq 64 b e he

/-- Exact value of `sys.float_info.max` (largest finite binary64). -/
def DBL_MAX : ℚ := mkRat (Int.ofNat ((binPow 2 53 - 1) * binPow 2 971)) 1

/-- Exact value of `sys.float_info.min` (smallest positive normal binary64). -/
def DBL_MIN : ℚ := mkRat 1 (binPow 2 1022)

/-- The four axis slots `'t','b','l','r'` of `Figure.axes`. -/
inductive Axis
  | t
  | b
  | l
  | r
deriving DecidableEq, Repr

/-- Iteration order of the axes dict: `get_args(XAxis) + get_args(YAxis)`. -/
def axisOrder : List Axis := [Axis.t, Axis.b, Axis.l, Axis.r]

/-- `Figure.get_axis_kind`: `'x'` for top/bottom, `'y'` for left/right. -/
def get_axis_kind : Axis → String
  | Axis.t => "x"
  | Axis.b => "x"
  | Axis.l => "y"
  | Axis.r => "y"

/-- `Figure.get_opposite_axis_kind`. -/
def get_opposite_axis_kind (k : String) : String :=
  if k = "y" then "x" else "y"

/-- `Figure.get_axis_pos`. -/
def get_axis_pos : Axis → String
  | Axis.t => "top"
  | Axis.l => "left"
  | Axis.r => "right"
  | Axis.b => "bottom"

/-- The single-character spelling of an axis key. -/
def Axis.char : Axis → String
  | Axis.t => "t"
  | Axis.b => "b"
  | Axis.l => "l"
  | Axis.r => "r"

/-- `GridSetup` record. -/
structure GridSetup where
  major_enable : Bool := false
  major_thickness : String := "thin"
  major_color : String := "black"
  minor_enable : Bool := false
  minor_color : String := "black"
  minor_thickness : String := "very thin"
deriving DecidableEq, Repr

/-- `TickSetup` record. -/
structure TickSetup where
  enable : Bool := true
  opposite : Bool := false
  major_thickness : String := "thin"
  major_color : String := "black"
  major_distance : Option ℚ := none
  minor_thickness : String := "thin"
  minor_color : String := "gray"
  minor_num : Int := 0
deriving DecidableEq, Repr

/-- `LegendSetup` record (`at` is a Lean keyword, spelled `at_` here). -/
structure LegendSetup where
  enable : Bool := true
  anchor : String := "north east"
  align : String := "left"
  cell_align : String := "left"
  at_ : ℚ × ℚ := (49/50, 49/50)
  scale : ℚ := 4/5
deriving DecidableEq, Repr

/-- `AxisSetup` record. -/
structure AxisSetup where
  label : String := ""
  label_shift : String := "0cm"
  scale : ℚ := 1
  log : Bool := false
  log_base : String := "10"
  limits : Option (ℚ × ℚ) := none
  padding : String := "0cm"
  grid : GridSetup := {}
  tick : TickSetup := {}
deriving DecidableEq, Repr

/-- `LineSetup` record. -/
structure LineSetup where
  plot_color : String := "black"
  line_style : String := "solid"
  line_width : String := "1pt"
  marker : String := ""
  marker_repeat : Int := 1
  marker_phase : Int := 0
deriving DecidableEq, Repr

/-- `Data` record (one series).  `_id` is `None` until `Figure.add` sets it. -/
structure Data where
  ax : Axis
  ay : Axis
  dx : List ℚ
  dy : List ℚ
  label : String := ""
  ls : LineSetup := {}
  _id : Option Nat := none
deriving DecidableEq, Repr

/-- The `Figure.axes` dict: one optional `AxisSetup` per slot. -/
structure AxesMap where
  t : Option AxisSetup := none
  b : Option AxisSetup := none
  l : Option AxisSetup := none
  r : Option AxisSetup := none
deriving DecidableEq, Repr

/-- Dictionary lookup `fig.axes[axis]`. -/
def AxesMap.get (m : AxesMap) : Axis → Option AxisSetup
  | Axis.t => m.t
  | Axis.b => m.b
  | Axis.l => m.l
  | Axis.r => m.r

/-- Dictionary update `fig.axes[axis] = v`. -/
def AxesMap.set (m : AxesMap) : Axis → Option AxisSetup → AxesMap
  | Axis.t, v => { m with t := v }
  | Axis.b, v => { m with b := v }
  | Axis.l, v => { m with l := v }
  | Axis.r, v => { m with r := v }

/-- `Figure` record. -/
structure Figure where
  name : String
  title : String := ""
  width : String := "5cm"
  height : String := "5cm"
  basic_thickness : String := "thick"
  background_color : String := "white"
  legend_setup : LegendSetup := {}
  axes : AxesMap := {}
  plot_data : List Data := []
  _data_counter : Nat := 0
deriving DecidableEq, Repr

/-- `Figure.__init__`: fresh figure, all axes unset, empty series list,
series-id counter at zero. -/
def Figure.new (name : String) : Figure := { name := name }

/-- `Figure.add`: assign the next sequential id and append the series. -/
def Figure.add (f : Figure) (d : Data) : Figure :=
  { f with
    plot_data := f.plot_data ++ [{ d with _id := some f._data_counter }]
    _data_counter := f._data_counter + 1 }

/-- `Figure.plot`: construct a `Data` and `add` it. -/
def Figure.plot (f : Figure) (ax ay : Axis) (dx dy : List ℚ)
    (label : String := "") (ls : LineSetup := {}) : Figure :=
  f.add { ax := ax, ay := ay, dx := dx, dy := dy, label := label, ls := ls }

/-!
Kernel-computable rational arithmetic.  The `Rat.mul`/`Rat.add`/`Rat.sub`/
`Rat.inv` definitions are `@[irreducible]`, which blocks `decide` on concrete
values, so the embedding uses the following wrappers, each proved equal to
the corresponding field operation on `ℚ`.
-/

/-- Rational multiplication via `mkRat` (kernel-computable). -/
def qmul (a b : ℚ) : ℚ := mkRat (a.num * b.num) (a.den * b.den)

/-- Rational addition via `mkRat` (kernel-computable). -/
def qadd (a b : ℚ) : ℚ := mkRat (a.num * b.den + b.num * a.den) (a.den * b.den)

/-- Rational subtraction via `mkRat` (kernel-computable). -/
def qsub (a b : ℚ) : ℚ := qadd a (-b)

/-- Rational inverse via `mkRat` (kernel-computable). -/
def qinv (b : ℚ) : ℚ := mkRat (b.num.sign * b.den) b.num.natAbs

/-- Rational division via `mkRat` (kernel-computable). -/
def qdiv (a b : ℚ) : ℚ := qmul a (qinv b)

theorem qmul_eq (a b : ℚ) : qmul a b = a * b := by
  rw [qmul, Rat.mkRat_eq_div, Int.cast_mul, Nat.cast_mul, ← div_mul_div_comm,
    Rat.num_div_den, Rat.num_div_den]

theorem qadd_eq (a b : ℚ) : qadd a b = a + b := by
  have ha : (a.den : ℚ) ≠ 0 := by exact_mod_cast a.den_nz
  have hb : (b.den : ℚ) ≠ 0 := by exact_mod_cast b.den_nz
  rw [qadd, Rat.mkRat_eq_div]
  conv_rhs => rw [← Rat.num_div_den a, ← Rat.num_div_den b]
  rw [div_add_div _ _ ha hb]
  push_cast
  ring_nf

theorem qsub_eq (a b : ℚ) : qsub a b = a - b := by
  rw [qsub, qadd_eq, sub_eq_add_neg]

theorem qinv_eq (b : ℚ) : qinv b = b⁻¹ := by
  rcases lt_trichotomy b.num 0 with hneg | hzero | hpos
  · have hs : b.num.sign = -1 := Int.sign_eq_neg_one_iff_neg.mpr hneg
    have hna : (b.num.natAbs : Int) = -b.num := Int.ofNat_natAbs_of_nonpos hneg.le
    have hz1 : (b.num.natAbs : Int) ≠ 0 := by
      rw [hna]
      exact neg_ne_zero.mpr hneg.ne
    rw [qinv, Rat.mkRat_eq_divInt, Rat.inv_def']
    rw [Rat.divInt_eq_iff hz1 hneg.ne]
    rw [hs, hna]
    ring
  · have hb : b = 0 := by
      rwa [← Rat.num_eq_zero]
    subst hb
    rw [qinv]
    norm_num
  · have hs : b.num.sign = 1 := Int.sign_eq_one_iff_pos.mpr hpos
    have hna : (b.num.natAbs : Int) = b.num := Int.natAbs_of_nonneg hpos.le
    have hz1 : (b.num.natAbs : Int) ≠ 0 := by
      rw [hna]
      exact hpos.ne.symm
    rw [qinv, Rat.mkRat_eq_divInt, Rat.inv_def']
    rw [Rat.divInt_eq_iff hz1 hpos.ne.symm]
    rw [hs, hna]
    ring

theorem qdiv_eq (a b : ℚ) : qdiv a b = a / b := by
  rw [qdiv, qmul_eq, qinv_eq, div_eq_mul_inv]

/-! Numeric formatting: model of Python's `f'{x:.20e}'` on exact rationals. -/

/-- Decimal digit character. -/
def digitChar (n : Nat) : Char := Char.ofNat (48 + n)

/-- Decimal digits of a natural number, most significant first (fuel-bounded). -/
def natDigitsAux : Nat → Nat → List Char → List Char
  | 0, _, acc => acc
  | fuel + 1, n, acc =>
      if n < 10 then digitChar n :: acc
      else natDigitsAux fuel (n / 10) (digitChar (n % 10) :: acc)

/-- Decimal rendering of a natural number (Python `str`). -/
def natToStr (n : Nat) : String := String.mk (natDigitsAux 400 n [])

/-- Decimal rendering of an integer (Python `str`). -/
def intToStr (n : Int) : String :=
  if n < 0 then "-" ++ natToStr n.natAbs else natToStr n.natAbs

/-- Python `str(x).lower()` on booleans. -/
def boolStr (b : Bool) : String := if b then "true" else "false"

/-- `10 ^ e` as a rational, for integer `e`. -/
def pow10 (e : Int) : ℚ :=
  if 0 ≤ e then mkRat (Int.ofNat (binPow 10 e.toNat)) 1 else mkRat 1 (binPow 10 (-e).toNat)

/-- Number of decimal digits of a natural number. -/
def numDigits (n : Nat) : Nat := (natDigitsAux 400 n []).length

/-- Decimal exponent of a positive rational `s = a / b`: the `e` with
`10^e ≤ s < 10^(e+1)`, computed from decimal digit counts. -/
def sciExp (s : ℚ) : Int :=
  let a := s.num.natAbs
  let b := s.den
  if b ≤ a then (numDigits (a / b) : Int) - 1
  else
    let d := numDigits (b / a)
    if b ≤ a * binPow 10 (d - 1) then -((d : Int) - 1) else -(d : Int)

/-- Round to the nearest integer, ties to even (IEEE / Python formatting). -/
def roundHalfEven (x : ℚ) : Int :=
  let n := x.floor
  let r := qsub x (mkRat n 1)
  if r < mkRat 1 2 then n
  else if mkRat 1 2 < r then n + 1
  else if n % 2 = 0 then n else n + 1

/-- Absolute value, kernel-computable. -/
def qabs (x : ℚ) : ℚ := if x < 0 then -x else x

/-- `_LatexOutput.__fmt_flt`: scientific notation with 20 fraction digits,
modelling Python's `f'{x:.20e}'` on the exact rational value. -/
def fmtFlt (x : ℚ) : String :=
  if x = 0 then "0.00000000000000000000e+00"
  else
    let sgn := if x < 0 then "-" else ""
    let s := qabs x
    let e := sciExp s
    let m := (roundHalfEven (qmul s (pow10 (20 - e)))).toNat
    let me := if 10 ^ 21 ≤ m then (m / 10, e + 1) else (m, e)
    let ds := natToStr me.1
    let mant := ds.take 1 ++ "." ++ ds.drop 1
    let esign := if me.2 < 0 then "-" else "+"
    let ea := me.2.natAbs
    let es := if ea < 10 then "0" ++ natToStr ea else natToStr ea
    sgn ++ mant ++ "e" ++ esign ++ es

/-!  `Figure._validate`: the data-set checks, the axis-limit auto-detection
(mutating unset `limits`), and the nested grid/tick check.  Python raising an
exception is modelled as the pair of the (possibly mutated) figure and an
optional error message. -/

/-- `np.max` over a series' values (the source only reaches it on non-empty data). -/
def npMax : List ℚ → ℚ
  | [] => 0
  | x :: xs => xs.foldl max x

/-- `np.min` over a series' values (the source only reaches it on non-empty data). -/
def npMin : List ℚ → ℚ
  | [] => 0
  | x :: xs => xs.foldl min x

/-- The four `assert` statements of the per-series loop of `_validate`,
in source order; returns the first failure. -/
def seriesCheck (f : Figure) (d : Data) : Option String :=
  if f.axes.get d.ax = none then some "assert axes[data.ax] is not None"
  else if f.axes.get d.ay = none then some "assert axes[data.ay] is not None"
  else if d.dx.length = 0 then some "assert len(data.dx) > 0"
  else if d.dy.length = 0 then some "assert len(data.dy) > 0"
  else none

/-- The per-series loop of `_validate`: first failing assertion, if any. -/
def dataCheck (f : Figure) : Option String :=
  f.plot_data.findSome? (seriesCheck f)

/-- One iteration of `_validate`'s auto-detection loop over the series: fold
in the scaled extrema of every series bound to the slot on its x-role (first
`if` of the source) and its y-role (second `if`). -/
def resolveStep (a : Axis) (s : AxisSetup) (mm : ℚ × ℚ) (d : Data) : ℚ × ℚ :=
  let mm1 :=
    if d.ax = a then
      (min mm.1 (qmul s.scale (npMin d.dx)), max mm.2 (qmul s.scale (npMax d.dx)))
    else mm
  if d.ay = a then
    (min mm1.1 (qmul s.scale (npMin d.dy)), max mm1.2 (qmul s.scale (npMax d.dy)))
  else mm1

/-- The running min/max of `_validate`'s auto-detection for one axis slot:
starts from `(sys.float_info.max, -sys.float_info.min)` and scans every
series bound to the slot on its x-role or y-role. -/
def resolveLimits (pd : List Data) (a : Axis) (s : AxisSetup) : ℚ × ℚ :=
  pd.foldl (resolveStep a s) (DBL_MAX, -DBL_MIN)

/-- The per-axis loop of `_validate`: fills unset limits; the grid/tick check
sits inside the `limits is None` branch, exactly as in the source.  The
returned figure carries all mutations made before a raise. -/
def validateAxes (f : Figure) : List Axis → Figure × Option String
  | [] => (f, none)
  | a :: rest =>
      match f.axes.get a with
      | none => validateAxes f rest
      | some s =>
          match s.limits with
          | some _ => validateAxes f rest
          | none =>
              let mm := resolveLimits f.plot_data a s
              let f2 : Figure :=
                { f with axes := f.axes.set a (some { s with limits := some mm }) }
              if s.grid.major_enable && !s.tick.enable then
                (f2, some "grid_major requires ticks to be enabled")
              else validateAxes f2 rest

/-- `Figure._validate`: per-series assertions, then per-axis resolution. -/
def Figure.validate (f : Figure) : Figure × Option String :=
  match dataCheck f with
  | some e => (f, some e)
  | none => validateAxes f axisOrder

/-!  `_LatexOutput`: the code emitter.  Literal braces of the LaTeX output
are written `\x7b` / `\x7d` in the string literals below. -/

/-- `_LatexOutput.AxisMode` (declared in the source; see the pairing model). -/
inductive AxisMode
  | HIDE
  | SINGLE
  | BOTH
deriving DecidableEq, Repr

/-- `_LatexOutput.overscale_limit = 1e10`. -/
def overscale_limit : ℚ := mkRat (Int.ofNat (binPow 10 10)) 1

/-- `str(data._id)`: the sequential id, or Python's `'None'` if never added. -/
def idStr (d : Data) : String :=
  match d._id with
  | some i => natToStr i
  | none => "None"

/-- `LatexCmdsDocClass`. -/
def LatexCmdsDocClass : List String := ["\\documentclass[class=IEEEtran]\x7bstandalone\x7d"]

/-- `LatexCmdsAfterDocClass`. -/
def LatexCmdsAfterDocClass : List String :=
  ["\\usepackage\x7btikz,amsmath,siunitx\x7d",
   "\\sisetup\x7brange-units=repeat, list-units=repeat, binary-units, exponent-product = \\cdot, print-unity-mantissa=false\x7d",
   "\\usetikzlibrary\x7barrows,snakes,backgrounds,patterns,matrix,shapes,fit,calc,shadows,plotmarks\x7d",
   "\\usepackage[graphics,tightpage,active]\x7bpreview\x7d",
   "\\usepackage\x7bpgfplots\x7d",
   "\\pgfplotsset\x7bcompat=newest\x7d",
   "\\usetikzlibrary\x7bshapes.geometric\x7d",
   "\\PreviewEnvironment\x7btikzpicture\x7d",
   "\\PreviewEnvironment\x7bequation\x7d",
   "\\PreviewEnvironment\x7bequation*\x7d",
   "\\newlength\\figurewidth",
   "\\newlength\\figureheight"]

/-- `_LatexOutput.__get_y_domain`. -/
def get_y_domain (asy : AxisSetup) : Option (ℚ × ℚ) :=
  match asy.limits with
  | none => none
  | some lohi =>
      if asy.log then none
      else
        some
          (if 0 < lohi.1 then qdiv lohi.1 overscale_limit else qmul lohi.1 overscale_limit,
           if 0 < lohi.2 then qmul lohi.2 overscale_limit else qdiv lohi.2 overscale_limit)

/-- `_LatexOutput.__create_doc_begin`. -/
def create_doc_begin (fig : Figure) : List String :=
  ["%%%%%%%%%%%%%%%%%%%%%%%%%%%%%%",
   "% auto-generated using dplot %",
   "%%%%%%%%%%%%%%%%%%%%%%%%%%%%%%"] ++
  LatexCmdsDocClass ++ LatexCmdsAfterDocClass ++
  ["\\begin\x7bdocument\x7d",
   "\\setlength\\figurewidth\x7b" ++ fig.width ++ "\x7d",
   "\\setlength\\figureheight\x7b" ++ fig.height ++ "\x7d",
   "\\begin\x7btikzpicture\x7d[font=\\normalsize]",
   "\\pgfplotsset\x7bevery axis/.append style=\x7b" ++ fig.basic_thickness ++
     "\x7d,compat=1.18\x7d,"]

/-- `_LatexOutput.__get_axis_param`. -/
def get_axis_param (fig : Figure) (axis_kind : String) (axis_setup : Option AxisSetup)
    (limits0 : Option (ℚ × ℚ)) : List String :=
  let limits :=
    match limits0 with
    | some L => L
    | none =>
        match axis_setup with
        | some s => s.limits.getD (0, 0)
        | none => (0, 0)
  ["scale only axis",
   "width=" ++ fig.width,
   "height=" ++ fig.height,
   axis_kind ++ "min=" ++ fmtFlt limits.1,
   axis_kind ++ "max=" ++ fmtFlt limits.2]

/-- One padding inset (`__create_padding` loop body); `[]` for an unset slot. -/
def paddingFor (fig : Figure) (axis : Axis) : List String :=
  match fig.axes.get axis with
  | none => []
  | some s =>
      let k := get_axis_kind axis
      let ko := get_opposite_axis_kind k
      let params := get_axis_param fig k (some s) (some (0, 1)) ++
        [k ++ "mode=linear",
         "log basis " ++ k ++ "=" ++ s.log_base,
         ko ++ "min=0",
         ko ++ "max=1",
         "xtick=\\empty",
         "ytick=\\empty",
         "hide " ++ ko ++ " axis=true",
         k ++ "tick style=\x7bdraw=none\x7d",
         k ++ "label=" ++ (if k = "y" then "\x7b\\hphantom\x7b-\x7d\x7d" else "\x7b\\vphantom\x7b-\x7d\x7d"),
         k ++ "label shift=" ++ s.padding,
         k ++ "ticklabel pos=" ++ get_axis_pos axis]
      ["\\begin\x7baxis\x7d% " ++ axis.char ++ "-axis", "["] ++
        params.map (fun p => "  " ++ p ++ ",") ++ ["]", "\\end\x7baxis\x7d"]

/-- `_LatexOutput.__create_padding`. -/
def create_padding (fig : Figure) : List String :=
  ["", "%%%%%%%%%%%", "% padding %", "%%%%%%%%%%%"] ++
    (axisOrder.map (paddingFor fig)).flatten

/-- One background inset (`__create_background` loop body); `applied` says
whether the background fill was already emitted by an earlier slot. -/
def backgroundFor (fig : Figure) (axis : Axis) (s : AxisSetup) (applied : Bool) :
    List String :=
  let k := get_axis_kind axis
  let ko := get_opposite_axis_kind k
  let params := get_axis_param fig k (some s) none ++
    (if applied then [] else
      ["axis background/.style=\x7bfill=" ++ fig.background_color ++ "\x7d"]) ++
    [k ++ "mode=" ++ (if s.log then "log" else "linear"),
     "log basis " ++ k ++ "=" ++ s.log_base,
     ko ++ "min=0",
     ko ++ "max=1",
     k ++ "label=\x7b" ++ s.label ++ "\x7d",
     k ++ "label shift=\x7b" ++ s.label_shift ++ "\x7d",
     "xticklabel=\\empty",
     "yticklabel=\\empty",
     k ++ "majorgrids=" ++ boolStr s.grid.major_enable,
     "major grid style=\x7b" ++ s.grid.major_thickness ++ ",color=" ++ s.grid.major_color ++ "\x7d",
     k ++ "minorgrids=" ++ boolStr s.grid.minor_enable,
     "minor grid style=\x7b" ++ s.grid.minor_thickness ++ ",color=" ++ s.grid.minor_color ++ "\x7d",
     k ++ "tick=" ++ (if s.tick.enable then "" else "\\empty"),
     ko ++ "tick=\\empty",
     k ++ "tick pos=" ++ (if s.tick.opposite then "both" else get_axis_pos axis),
     k ++ "tick distance=" ++
       (match s.tick.major_distance with
        | some dq => fmtFlt dq
        | none => ""),
     "major " ++ k ++ " tick style=\x7b" ++ s.tick.major_thickness ++ ",color=" ++ s.tick.major_color ++ "\x7d",
     "minor " ++ k ++ " tick style=\x7b" ++ s.tick.minor_thickness ++ ",color=" ++ s.tick.minor_color ++ "\x7d",
     "minor " ++ k ++ " tick num=" ++ intToStr s.tick.minor_num]
  ["\\begin\x7baxis\x7d% " ++ axis.char ++ "-axis", "["] ++
    params.map (fun p => "  " ++ p ++ ",") ++ ["]", "\\end\x7baxis\x7d"]

/-- The `__create_background` loop, threading the background-fill flag. -/
def backgroundLoop (fig : Figure) : List Axis → Bool → List String
  | [], _ => []
  | a :: rest, applied =>
      match fig.axes.get a with
      | none => backgroundLoop fig rest applied
      | some s => backgroundFor fig a s applied ++ backgroundLoop fig rest true

/-- `_LatexOutput.__create_background`. -/
def create_background (fig : Figure) : List String :=
  ["", "%%%%%%%%%%%%%%", "% background %", "%%%%%%%%%%%%%%"] ++
    backgroundLoop fig axisOrder false

/-- `_LatexOutput.__create_plot_begin`. -/
def create_plot_begin (fig : Figure) (ax ay : Axis) : List String :=
  let asy := (fig.axes.get ay).getD {}
  let axis_setup := (fig.axes.get ax).getD {}
  let params := get_axis_param fig "x" (fig.axes.get ax) none ++
    ["ymin=" ++ fmtFlt (asy.limits.getD (0, 0)).1,
     "ymax=" ++ fmtFlt (asy.limits.getD (0, 0)).2,
     "xmode=" ++ (if axis_setup.log then "log" else "linear"),
     "log basis x=" ++ axis_setup.log_base,
     "ymode=" ++ (if asy.log then "log" else "linear"),
     "log basis y=" ++ asy.log_base,
     "hide x axis=true",
     "hide y axis=true",
     "xtick=\\empty",
     "ytick=\\empty"]
  ["\\begin\x7baxis\x7d", "["] ++ params.map (fun p => "  " ++ p ++ ",") ++ ["]"]

/-- `_LatexOutput.__create_plot_content` with the y-domain passed explicitly
(the source computes it from the y-axis setup; see `create_plot_content`). -/
def create_plot_content_aux (fig : Figure) (ax ay : Axis) (d : Data)
    (y_domain : Option (ℚ × ℚ)) : List String :=
  let params_plot :=
    ["color=" ++ d.ls.plot_color,
     d.ls.line_style,
     "line width=" ++ d.ls.line_width,
     "mark=" ++ d.ls.marker,
     "mark repeat=" ++ intToStr d.ls.marker_repeat,
     "mark phase=" ++ intToStr d.ls.marker_phase,
     "mark options=\x7bsolid\x7d"] ++
    (if d.ls.line_style.length = 0 then ["only marks"] else []) ++
    (if d.ls.marker.length = 0 then ["no markers"] else []) ++
    (match y_domain with
     | some mm => ["restrict y to domain=\x7b" ++ fmtFlt mm.1 ++ ":" ++ fmtFlt mm.2 ++ "\x7d"]
     | none => [])
  let asx := (fig.axes.get ax).getD {}
  let asy := (fig.axes.get ay).getD {}
  let params_table :=
    ["row sep=newline",
     "x expr=\\thisrowno\x7b0\x7d*" ++ fmtFlt asx.scale,
     "y expr=\\thisrowno\x7b1\x7d*" ++ fmtFlt asy.scale]
  ["\\addplot ["] ++ params_plot.map (fun p => "  " ++ p ++ ",") ++
    ["] table ["] ++ params_table.map (fun p => "  " ++ p ++ ",") ++
    ["]\x7b"] ++
    (d.dx.zip d.dy).map (fun xy => "  " ++ fmtFlt xy.1 ++ " " ++ fmtFlt xy.2) ++
    ["\x7d;", "\\label\x7bdplot:" ++ idStr d ++ "\x7d"]

/-- `_LatexOutput.__create_plot_content`. -/
def create_plot_content (fig : Figure) (ax ay : Axis) (d : Data) : List String :=
  create_plot_content_aux fig ax ay d (get_y_domain ((fig.axes.get ay).getD {}))

/-- `_LatexOutput.__create_plot_end`. -/
def create_plot_end : List String := ["\\end\x7baxis\x7d"]

/-- `data_selected`: the series of one `(x, y)` pair, in insertion order. -/
def seriesFor (fig : Figure) (ax ay : Axis) : List Data :=
  fig.plot_data.filter (fun d => d.ax == ax && d.ay == ay)

/-- `_LatexOutput.__create_plot_group`. -/
def create_plot_group (fig : Figure) (ax ay : Axis) : List String :=
  ["", "%%%%%%%%%%%%%%%%%%",
   "% plot group " ++ ax.char ++ "/" ++ ay.char ++ " %",
   "%%%%%%%%%%%%%%%%%%"] ++
  (if (seriesFor fig ax ay).length > 0 then
    create_plot_begin fig ax ay ++
      ((seriesFor fig ax ay).map (create_plot_content fig ax ay)).flatten ++
      create_plot_end
  else [])

/-- One overlay inset (`__create_overlay` loop body); `[]` for an unset slot. -/
def overlayFor (fig : Figure) (axis : Axis) : List String :=
  match fig.axes.get axis with
  | none => []
  | some s =>
      let k := get_axis_kind axis
      let ko := get_opposite_axis_kind k
      let params := get_axis_param fig k (some s) none ++
        [ko ++ "min=0",
         ko ++ "max=1",
         k ++ "mode=" ++ (if s.log then "log" else "linear"),
         "log basis " ++ k ++ "=" ++ s.log_base,
         k ++ "tick style=\x7bdraw=none\x7d",
         k ++ "tick distance=" ++
           (match s.tick.major_distance with
            | some dq => fmtFlt dq
            | none => ""),
         "hide " ++ ko ++ " axis=true",
         k ++ "ticklabel pos=" ++ get_axis_pos axis,
         "axis on top=true"]
      ["\\begin\x7baxis\x7d% " ++ axis.char ++ "-axis", "["] ++
        params.map (fun p => "  " ++ p ++ ",") ++ ["]", "\\end\x7baxis\x7d"]

/-- `_LatexOutput.__create_overlay`. -/
def create_overlay (fig : Figure) : List String :=
  ["", "%%%%%%%%%%%", "% overlay %", "%%%%%%%%%%%"] ++
    (axisOrder.map (overlayFor fig)).flatten

/-- One legend entry line (`__create_legend` loop body). -/
def legendEntry (d : Data) : String :=
  "\\addlegendimage\x7b/pgfplots/refstyle=dplot:" ++ idStr d ++
    "\x7d\\addlegendentry\x7b" ++ (if d.label.length > 0 then d.label else idStr d) ++ "\x7d"

/-- `_LatexOutput.__create_legend`. -/
def create_legend (fig : Figure) : List String :=
  let legend_style :=
    ["at=\x7b(" ++ fmtFlt fig.legend_setup.at_.1 ++ "," ++ fmtFlt fig.legend_setup.at_.2 ++ ")\x7d",
     "anchor=" ++ fig.legend_setup.anchor,
     "legend cell align=" ++ fig.legend_setup.cell_align,
     "align=" ++ fig.legend_setup.align,
     "nodes=\x7bscale=" ++ fmtFlt fig.legend_setup.scale ++ ", transform shape\x7d"]
  let params := get_axis_param fig "x" none (some (0, 1)) ++
    ["ymin=0",
     "ymax=1",
     "xmode=linear",
     "hide x axis=true",
     "hide y axis=true",
     "axis on top=true",
     "legend style=\x7b" ++ String.intercalate ", " legend_style ++ "\x7d"]
  ["", "%%%%%%%%%%", "% legend %", "%%%%%%%%%%", "\\begin\x7baxis\x7d", "["] ++
    params.map (fun p => "  " ++ p ++ ",") ++ ["]"] ++
    fig.plot_data.map legendEntry ++ ["\\end\x7baxis\x7d"]

/-- `_LatexOutput.__create_doc_end`. -/
def create_doc_end : List String := ["\\end\x7btikzpicture\x7d", "\\end\x7bdocument\x7d"]

/-- `_LatexOutput.exec`: the whole document, in emission order. -/
def latexExec (fig : Figure) : List String :=
  create_doc_begin fig ++ create_padding fig ++ create_background fig ++
    create_plot_group fig Axis.t Axis.l ++ create_plot_group fig Axis.t Axis.r ++
    create_plot_group fig Axis.b Axis.l ++ create_plot_group fig Axis.b Axis.r ++
    create_overlay fig ++
    (if fig.legend_setup.enable then create_legend fig else []) ++
    create_doc_end

/-- `Figure.get_latex_code`: `_validate` (which may mutate the figure and may
raise), then emission.  Returns the post-state figure and the outcome. -/
def Figure.get_latex_code (f : Figure) : Figure × Except String (List String) :=
  let fe := f.validate
  match fe.2 with
  | some m => (fe.1, Except.error m)
  | none => (fe.1, Except.ok (latexExec fe.1))

/-!  Pairing / visibility resolution (spec section 4.3).  The source declares
the `AxisMode` enum but contains no resolver code; the resolver itself is
modelled from the spec. -/

/-- The four `(x-slot, y-slot)` combinations, in the emitter's order. -/
def pairOrder : List (Axis × Axis) :=
  [(Axis.t, Axis.l), (Axis.t, Axis.r), (Axis.b, Axis.l), (Axis.b, Axis.r)]

/-- Modelled from the spec: the pairing/visibility resolver of section 4.3 is
missing from the source (only the `_LatexOutput.AxisMode` enum is declared).
The initializers of a physical edge are the `(x, y)` combinations that carry
at least one series and use that edge; per the spec, when two different
partners both first-use an edge, every one of them counts as an initializer
of it. -/
def edgeInitializers (f : Figure) (e : Axis) : List (Axis × Axis) :=
  pairOrder.filter
    (fun p => (seriesFor f p.1 p.2).length > 0 && (p.1 == e || p.2 == e))

/-- Modelled from the spec: per-edge mode resolution of section 4.3 — an edge
with no initializing combination is `HIDE`; a sole initializer gets `BOTH`
(the opposite edge is implied); more than one initializer downgrades the edge
to `SINGLE`. -/
def resolveEdgeMode (f : Figure) (e : Axis) : AxisMode :=
  match edgeInitializers f e with
  | [] => AxisMode.HIDE
  | [_] => AxisMode.BOTH
  | _ => AxisMode.SINGLE

/-- Two series, one on (bottom,left) and one on (bottom,right). -/
def figPairShared : Figure :=
  let f0 := Figure.new "shared"
  let f1 : Figure := { f0 with
    axes := ((f0.axes.set Axis.b (some {})).set Axis.l (some {})).set Axis.r (some {}) }
  (f1.add { ax := Axis.b, ay := Axis.l, dx := [0, 1], dy := [1, 2] }).add
    { ax := Axis.b, ay := Axis.r, dx := [0, 1], dy := [3, 4] }

/-- Exactly one series, bound to (bottom,left). -/
def figPairSole : Figure :=
  let f0 := Figure.new "sole"
  let f1 : Figure := { f0 with
    axes := (f0.axes.set Axis.b (some {})).set Axis.l (some {}) }
  f1.add { ax := Axis.b, ay := Axis.l, dx := [0, 1], dy := [1, 2] }

/-- Claim C1: every physical edge resolves to one of HIDE/SINGLE/BOTH; an edge
with no initializing combination is HIDE; an edge first-used by more than one
(x-slot, y-slot) combination resolves to SINGLE for its initializers, never
BOTH; an edge with a sole initializing combination resolves to BOTH. -/
theorem edge_mode_resolution (f : Figure) (e : Axis) :
    (resolveEdgeMode f e = AxisMode.HIDE ∨ resolveEdgeMode f e = AxisMode.SINGLE ∨
      resolveEdgeMode f e = AxisMode.BOTH) ∧
    (edgeInitializers f e = [] → resolveEdgeMode f e = AxisMode.HIDE) ∧
    (2 ≤ (edgeInitializers f e).length → resolveEdgeMode f e = AxisMode.SINGLE) ∧
    ((edgeInitializers f e).length = 1 → resolveEdgeMode f e = AxisMode.BOTH) := by
  unfold resolveEdgeMode
  match h : edgeInitializers f e with
  | [] =>
      refine ⟨Or.inl rfl, fun _ => rfl, fun h2 => ?_, fun h1 => ?_⟩
      · simp at h2
      · simp at h1
  | [x] =>
      refine ⟨Or.inr (Or.inr rfl), fun hc => ?_, fun h2 => ?_, fun _ => rfl⟩
      · simp at hc
      · simp at h2
  | x :: y :: rest =>
      refine ⟨Or.inr (Or.inl rfl), fun hc => ?_, fun _ => rfl, fun h1 => ?_⟩
      · simp at hc
      · simp at h1

/-- Witness for C1: the two spec scenarios — a shared bottom edge resolves to
SINGLE, and a sole (bottom,left) series gives BOTH on the bottom and the left
edges (and HIDE on an unused edge). -/
theorem edge_mode_resolution_witness :
    resolveEdgeMode figPairShared Axis.b = AxisMode.SINGLE ∧
    resolveEdgeMode figPairSole Axis.b = AxisMode.BOTH ∧
    resolveEdgeMode figPairSole Axis.l = AxisMode.BOTH ∧
    resolveEdgeMode figPairSole Axis.r = AxisMode.HIDE :=
  ⟨(edge_mode_resolution figPairShared Axis.b).2.2.1 (by decide),
   (edge_mode_resolution figPairSole Axis.b).2.2.2 (by decide),
   (edge_mode_resolution figPairSole Axis.l).2.2.2 (by decide),
   (edge_mode_resolution figPairSole Axis.r).2.1 (by decide)⟩

/-!  Claim C2: axis range resolution. -/

/-- Scenario 3 of the spec: `scale = 2`, two series with raw y-values spanning
`[0, 10]` and `[5, 20]` on the same y-slot, `limits = None`. -/
def figScale2 : Figure :=
  let f0 := Figure.new "scale2"
  let f1 : Figure := { f0 with
    axes := (f0.axes.set Axis.b (some {})).set Axis.l (some { scale := 2 }) }
  (f1.add { ax := Axis.b, ay := Axis.l, dx := [0, 1], dy := [0, 10] }).add
    { ax := Axis.b, ay := Axis.l, dx := [0, 1], dy := [5, 20] }

/-- All-negative y-values: exposes the running-maximum initialization slip. -/
def figAllNeg : Figure :=
  let f0 := Figure.new "allneg"
  let f1 : Figure := { f0 with
    axes := (f0.axes.set Axis.b (some {})).set Axis.l (some {}) }
  f1.add { ax := Axis.b, ay := Axis.l, dx := [1, 2], dy := [-5, -3] }

/-- Claim C2: the positive-valued spec scenario resolves to (0, 40) as claimed,
but on all-negative data the resolver's running maximum starts at
`-sys.float_info.min` (a tiny negative, instead of `-sys.float_info.max`), so
the resolved upper limit is `-DBL_MIN` rather than the actual maximum `-3`:
the code contradicts the spec's `(min, max)` contract. -/
theorem axis_range_resolution_bug :
    ((figScale2.validate).1.axes.get Axis.l).map (fun s => s.limits) =
      some (some (0, 40)) ∧
    (figScale2.validate).2 = none ∧
    ((figAllNeg.validate).1.axes.get Axis.l).map (fun s => s.limits) =
      some (some (-5, -DBL_MIN)) ∧
    (figAllNeg.validate).2 = none ∧
    -DBL_MIN ≠ (-3 : ℚ) := by
  decide

/-!  Claim C3: the grid-requires-ticks check is skipped when limits are set. -/

/-- Grid enabled, ticks disabled, limits explicitly set: per the claim this
must always raise; the code's check sits inside the `limits is None` branch. -/
def figGridExplicit : Figure :=
  let f0 := Figure.new "gridexp"
  { f0 with
    axes := f0.axes.set Axis.b
      (some { limits := some (0, 1), grid := { major_enable := true },
              tick := { enable := false } }) }

/-- The same configuration with `limits = None`: here the check fires. -/
def figGridAuto : Figure :=
  let f0 := Figure.new "gridauto"
  { f0 with
    axes := f0.axes.set Axis.b
      (some { grid := { major_enable := true }, tick := { enable := false } }) }

/-- Claim C3: with explicitly set limits, `_validate` raises nothing for a
grid-without-ticks axis (the check is nested inside the `limits is None`
branch), contradicting the claim that the error is raised regardless of all
other fields; with `limits = None` the same configuration does raise. -/
theorem grid_ticks_check_skipped :
    (figGridExplicit.validate).2 = none ∧
    (figGridExplicit.get_latex_code).2.isOk = true ∧
    (figGridAuto.validate).2 = some "grid_major requires ticks to be enabled" := by
  decide

/-!  Lemmas about the validator's state evolution. -/

theorem AxesMap.get_set (m : AxesMap) (a x : Axis) (v : Option AxisSetup) :
    (m.set a v).get x = if x = a then v else m.get x := by
  cases a <;> cases x <;> simp [AxesMap.set, AxesMap.get]

/-- Every axis key is in the iteration order. -/
theorem mem_axisOrder (a : Axis) : a ∈ axisOrder := by
  cases a <;> decide

/-- `validateAxes` touches only the `axes` component of the figure. -/
theorem validateAxes_frame (l : List Axis) (f : Figure) :
    (validateAxes f l).1.name = f.name ∧
    (validateAxes f l).1.title = f.title ∧
    (validateAxes f l).1.width = f.width ∧
    (validateAxes f l).1.height = f.height ∧
    (validateAxes f l).1.basic_thickness = f.basic_thickness ∧
    (validateAxes f l).1.background_color = f.background_color ∧
    (validateAxes f l).1.legend_setup = f.legend_setup ∧
    (validateAxes f l).1.plot_data = f.plot_data ∧
    (validateAxes f l).1._data_counter = f._data_counter := by
  induction l generalizing f with
  | nil => exact ⟨rfl, rfl, rfl, rfl, rfl, rfl, rfl, rfl, rfl⟩
  | cons a rest ih =>
      rcases hax : f.axes.get a with _ | s
      · simpa [validateAxes, hax] using ih f
      · rcases hlim : s.limits with _ | lim
        · by_cases hg : s.grid.major_enable && !s.tick.enable
          · simp [validateAxes, hax, hlim, hg]
          · simpa [validateAxes, hax, hlim, hg] using
              ih { f with axes := f.axes.set a (some { s with
                limits := some (resolveLimits f.plot_data a s) }) }
        · simpa [validateAxes, hax, hlim] using ih f

/-- How `validateAxes` can change one axis entry: either it is untouched, or
an unset `limits` was filled with the resolved range. -/
theorem validateAxes_axes_get (l : List Axis) (f : Figure) (a : Axis) :
    (validateAxes f l).1.axes.get a = f.axes.get a ∨
    (∃ s, f.axes.get a = some s ∧ s.limits = none ∧
      (validateAxes f l).1.axes.get a =
        some { s with limits := some (resolveLimits f.plot_data a s) }) := by
  induction l generalizing f with
  | nil => exact Or.inl rfl
  | cons a0 rest ih =>
      rcases hax : f.axes.get a0 with _ | s
      · simpa [validateAxes, hax] using ih f
      · rcases hlim : s.limits with _ | lim
        · set f2 : Figure := { f with axes := f.axes.set a0 (some { s with
            limits := some (resolveLimits f.plot_data a0 s) }) } with hf2
          by_cases hg : s.grid.major_enable && !s.tick.enable
          · simp only [validateAxes, hax, hlim, hg, if_pos rfl]
            by_cases hab : a = a0
            · subst hab
              refine Or.inr ⟨s, hax, hlim, ?_⟩
              simp [hf2, AxesMap.get_set]
            · refine Or.inl ?_
              simp [hf2, AxesMap.get_set, hab]
          · simp only [validateAxes, hax, hlim, hg, if_neg, Bool.false_eq_true,
              not_false_iff]
            rcases ih f2 with h1 | ⟨s2, hs2, hl2, hres⟩
            · rw [h1]
              by_cases hab : a = a0
              · subst hab
                refine Or.inr ⟨s, hax, hlim, ?_⟩
                simp [hf2, AxesMap.get_set]
              · refine Or.inl ?_
                simp [hf2, AxesMap.get_set, hab]
            · by_cases hab : a = a0
              · subst hab
                rw [hf2] at hs2
                rw [AxesMap.get_set] at hs2
                simp at hs2
                rw [← hs2] at hl2
                simp at hl2
              · rw [hf2] at hs2
                rw [AxesMap.get_set] at hs2
                rw [if_neg hab] at hs2
                refine Or.inr ⟨s2, hs2, hl2, ?_⟩
                rw [hres]
        · simpa [validateAxes, hax, hlim] using ih f

/-- An unset axis entry stays unset, a set one stays set. -/
theorem validateAxes_get_none_iff (l : List Axis) (f : Figure) (a : Axis) :
    ((validateAxes f l).1.axes.get a = none ↔ f.axes.get a = none) := by
  rcases validateAxes_axes_get l f a with h | ⟨s, hs, _, hres⟩
  · rw [h]
  · rw [hres, hs]
    simp

/-- After a successful `validateAxes` pass, every processed configured axis
has its limits set. -/
theorem validateAxes_success_limits (l : List Axis) (f f2 : Figure)
    (h : validateAxes f l = (f2, none)) (a : Axis) (ha : a ∈ l) (s2 : AxisSetup)
    (hs : f2.axes.get a = some s2) : s2.limits ≠ none := by
  induction l generalizing f with
  | nil => cases ha
  | cons a0 rest ih =>
      rcases hax : f.axes.get a0 with _ | s
      · simp only [validateAxes, hax] at h
        rcases List.mem_cons.mp ha with hae | har
        · subst hae
          have hnone : f2.axes.get a = none := by
            have hiff := validateAxes_get_none_iff rest f a
            rw [h] at hiff
            exact hiff.mpr hax
          rw [hs] at hnone
          cases hnone
        · exact ih f h har
      · rcases hlim : s.limits with _ | lim
        · by_cases hg : (s.grid.major_enable && !s.tick.enable) = true
          · simp [validateAxes, hax, hlim, hg] at h
          · simp only [validateAxes, hax, hlim] at h
            rw [if_neg hg] at h
            set f3 : Figure := { f with axes := f.axes.set a0 (some { s with
              limits := some (resolveLimits f.plot_data a0 s) }) } with hf3
            rcases List.mem_cons.mp ha with hae | har
            · subst hae
              have hset : f3.axes.get a = some { s with
                  limits := some (resolveLimits f.plot_data a s) } := by
                rw [hf3]
                show (f.axes.set a _).get a = _
                rw [AxesMap.get_set, if_pos rfl]
              rcases validateAxes_axes_get rest f3 a with h1 | ⟨sx, hsx, hlx, hres⟩
              · rw [h] at h1
                rw [h1, hset] at hs
                have hs2 := Option.some.inj hs
                rw [← hs2]
                simp
              · rw [hset] at hsx
                have hinj := Option.some.inj hsx
                rw [← hinj] at hlx
                simp at hlx
            · exact ih f3 h har
        · simp only [validateAxes, hax, hlim] at h
          rcases List.mem_cons.mp ha with hae | har
          · subst hae
            rcases validateAxes_axes_get rest f a with h1 | ⟨sx, hsx, hlx, hres⟩
            · rw [h] at h1
              rw [h1, hax] at hs
              have hinj := Option.some.inj hs
              rw [← hinj, hlim]
              simp
            · rw [hax] at hsx
              have hinj := Option.some.inj hsx
              rw [← hinj] at hlx
              rw [hlim] at hlx
              cases hlx
          · exact ih f h har

/-- If every configured axis already has limits, `validateAxes` is the
identity and succeeds. -/
theorem validateAxes_id_of_set (l : List Axis) (f : Figure)
    (h : ∀ a ∈ l, ∀ s, f.axes.get a = some s → s.limits ≠ none) :
    validateAxes f l = (f, none) := by
  induction l generalizing f with
  | nil => rfl
  | cons a0 rest ih =>
      rcases hax : f.axes.get a0 with _ | s
      · simp only [validateAxes, hax]
        exact ih f (fun a ha => h a (List.mem_cons_of_mem _ ha))
      · rcases hlim : s.limits with _ | lim
        · exact absurd hlim (h a0 (List.mem_cons_self _ _) s hax)
        · simp only [validateAxes, hax, hlim]
          exact ih f (fun a ha => h a (List.mem_cons_of_mem _ ha))

/-- A series bound elsewhere leaves the running extrema untouched. -/
theorem resolveStep_skip (a : Axis) (s : AxisSetup) (mm : ℚ × ℚ) (d : Data)
    (hx : d.ax ≠ a) (hy : d.ay ≠ a) : resolveStep a s mm d = mm := by
  simp [resolveStep, hx, hy]

/-- No matching series: the resolved range is the untouched pair of starting
values `(sys.float_info.max, -sys.float_info.min)`. -/
theorem resolveLimits_no_series (pd : List Data) (a : Axis) (s : AxisSetup)
    (h : ∀ d ∈ pd, d.ax ≠ a ∧ d.ay ≠ a) :
    resolveLimits pd a s = (DBL_MAX, -DBL_MIN) := by
  have key : ∀ (init : ℚ × ℚ), pd.foldl (resolveStep a s) init = init := by
    induction pd with
    | nil => intro init; rfl
    | cons d rest ih =>
        intro init
        have hd := h d (List.mem_cons_self _ _)
        rw [List.foldl_cons, resolveStep_skip a s init d hd.1 hd.2]
        exact ih (fun x hx => h x (List.mem_cons_of_mem _ hx)) init
  exact key (DBL_MAX, -DBL_MIN)

/-- `dataCheck` succeeds iff every series passes its assertions. -/
theorem dataCheck_eq_none_iff (f : Figure) :
    dataCheck f = none ↔ ∀ d ∈ f.plot_data, seriesCheck f d = none := by
  simp [dataCheck, List.findSome?_eq_none_iff]

/-- `seriesCheck` depends on the axes map only through which slots are unset. -/
theorem seriesCheck_congr (g f : Figure) (d : Data)
    (h : ∀ a, (g.axes.get a = none) ↔ (f.axes.get a = none)) :
    seriesCheck g d = seriesCheck f d := by
  have e1 := h d.ax
  have e2 := h d.ay
  simp only [seriesCheck, e1, e2]

/-- `(f.get_latex_code).1` is the figure state after `_validate`. -/
theorem get_latex_code_fst (f : Figure) : (f.get_latex_code).1 = (f.validate).1 := by
  unfold Figure.get_latex_code
  rcases h : (f.validate).2 with _ | m <;> simp [h]

/-- `Figure.validate` touches only the `axes` component. -/
theorem validate_frame (f : Figure) :
    (f.validate).1.name = f.name ∧
    (f.validate).1.title = f.title ∧
    (f.validate).1.width = f.width ∧
    (f.validate).1.height = f.height ∧
    (f.validate).1.basic_thickness = f.basic_thickness ∧
    (f.validate).1.background_color = f.background_color ∧
    (f.validate).1.legend_setup = f.legend_setup ∧
    (f.validate).1.plot_data = f.plot_data ∧
    (f.validate).1._data_counter = f._data_counter := by
  rcases hdc : dataCheck f with _ | e
  · simpa [Figure.validate, hdc] using validateAxes_frame axisOrder f
  · simp [Figure.validate, hdc]

/-- How `Figure.validate` can change one axis entry. -/
theorem validate_axes_get (f : Figure) (a : Axis) :
    (f.validate).1.axes.get a = f.axes.get a ∨
    (∃ s, f.axes.get a = some s ∧ s.limits = none ∧
      (f.validate).1.axes.get a =
        some { s with limits := some (resolveLimits f.plot_data a s) }) := by
  rcases hdc : dataCheck f with _ | e
  · simpa [Figure.validate, hdc] using validateAxes_axes_get axisOrder f a
  · simp [Figure.validate, hdc]

/-!  Claim C6: the resolver only fills unset limits and re-running it is the
identity. -/

/-- Claim C6: on a successful run, any axis whose limits were already set is
returned unchanged, and running `_validate` again on the result is the
identity (and succeeds): the resolver never overwrites existing limits. -/
theorem range_resolver_idempotent (f f2 : Figure) (hv : f.validate = (f2, none)) :
    (∀ a s, f.axes.get a = some s → s.limits ≠ none → f2.axes.get a = some s) ∧
    f2.validate = (f2, none) := by
  rcases hdc : dataCheck f with _ | e
  · have hv2 : validateAxes f axisOrder = (f2, none) := by
      rw [Figure.validate, hdc] at hv
      exact hv
    constructor
    · intro a s hs hl
      rcases validateAxes_axes_get axisOrder f a with h1 | ⟨s0, hs0, hl0, _⟩
      · rw [hv2] at h1
        rw [h1, hs]
      · rw [hs] at hs0
        have heq := Option.some.inj hs0
        rw [← heq] at hl0
        exact absurd hl0 hl
    · have hlimset : ∀ a ∈ axisOrder, ∀ s, f2.axes.get a = some s → s.limits ≠ none :=
        fun a ha s hs => validateAxes_success_limits axisOrder f f2 hv2 a ha s hs

      have hpdata : f2.plot_data = f.plot_data := by
        have hfr := (validateAxes_frame axisOrder f).2.2.2.2.2.2.2.1
        rw [hv2] at hfr
        exact hfr
      have haxiff : ∀ a, (f2.axes.get a = none) ↔ (f.axes.get a = none) := by
        intro a
        have hiff := validateAxes_get_none_iff axisOrder f a
        rw [hv2] at hiff
        exact hiff
      have hdc2 : dataCheck f2 = none := by
        rw [dataCheck_eq_none_iff]
        intro d hd
        rw [seriesCheck_congr f2 f d haxiff]
        exact (dataCheck_eq_none_iff f).mp hdc d (hpdata ▸ hd)
      rw [Figure.validate, hdc2]
      exact validateAxes_id_of_set axisOrder f2 hlimset
  · rw [Figure.validate, hdc] at hv
    have := congrArg Prod.snd hv
    simp at this

/-- A figure with one explicitly-limited axis and one auto axis. -/
def figIdem : Figure :=
  let f0 := Figure.new "idem"
  let f1 : Figure := { f0 with
    axes := (f0.axes.set Axis.b (some { label := "x", limits := some (1, 2) })).set
      Axis.l (some { label := "y" }) }
  f1.add { ax := Axis.b, ay := Axis.l, dx := [0, 1], dy := [3, 4] }

/-- Witness for C6: explicit limits survive resolution unchanged, and
re-validating the resolved figure is the identity. -/
theorem range_resolver_idempotent_witness :
    (figIdem.validate).1.axes.get Axis.b = some { label := "x", limits := some (1, 2) } ∧
    ((figIdem.validate).1).validate = ((figIdem.validate).1, none) :=
  ⟨(range_resolver_idempotent figIdem (figIdem.validate).1 rfl).1 Axis.b
      { label := "x", limits := some (1, 2) } (by decide) (by decide),
   (range_resolver_idempotent figIdem (figIdem.validate).1 rfl).2⟩

/-!  Claim C7: is compilation a pure, non-mutating function of the figure? -/

/-- A figure whose left axis has unset limits: compilation fills them. -/
def figMut : Figure :=
  let f0 := Figure.new "mut"
  let f1 : Figure := { f0 with
    axes := (f0.axes.set Axis.b (some { label := "x", limits := some (0, 1) })).set
      Axis.l (some { label := "y" }) }
  f1.add { ax := Axis.b, ay := Axis.l, dx := [0, 1], dy := [3, 4] }

/-- Counterexample to C7: generating the code mutates the figure — the left
axis setup's `limits` field changes from `None` to the resolved range. -/
theorem compile_mutates_figure :
    (figMut.get_latex_code).1.axes.get Axis.l ≠ figMut.axes.get Axis.l := by
  decide

/-- Claim C7 (amended): compilation is a deterministic function with no
input/output that leaves every part of the figure unchanged except that range
resolution fills `limits` fields that were `None`; axes with set limits and
all non-axes state are untouched. -/
theorem compile_mutates_only_unset_limits (f : Figure) (a : Axis) (s : AxisSetup)
    (hs : f.axes.get a = some s) :
    (f.get_latex_code).1.name = f.name ∧
    (f.get_latex_code).1.title = f.title ∧
    (f.get_latex_code).1.width = f.width ∧
    (f.get_latex_code).1.height = f.height ∧
    (f.get_latex_code).1.basic_thickness = f.basic_thickness ∧
    (f.get_latex_code).1.background_color = f.background_color ∧
    (f.get_latex_code).1.legend_setup = f.legend_setup ∧
    (f.get_latex_code).1.plot_data = f.plot_data ∧
    (f.get_latex_code).1._data_counter = f._data_counter ∧
    (s.limits ≠ none → (f.get_latex_code).1.axes.get a = some s) ∧
    (∃ lim, (f.get_latex_code).1.axes.get a = some { s with limits := lim }) := by
  rw [get_latex_code_fst]
  have hfr := validate_frame f
  refine ⟨hfr.1, hfr.2.1, hfr.2.2.1, hfr.2.2.2.1, hfr.2.2.2.2.1, hfr.2.2.2.2.2.1,
    hfr.2.2.2.2.2.2.1, hfr.2.2.2.2.2.2.2.1, hfr.2.2.2.2.2.2.2.2, ?_, ?_⟩
  · intro hl
    rcases validate_axes_get f a with h1 | ⟨s0, hs0, hl0, _⟩
    · rw [h1, hs]
    · rw [hs] at hs0
      have heq := Option.some.inj hs0
      rw [← heq] at hl0
      exact absurd hl0 hl
  · rcases validate_axes_get f a with h1 | ⟨s0, hs0, hl0, hres⟩
    · refine ⟨s.limits, ?_⟩
      rw [h1, hs]
    · rw [hs] at hs0
      have heq := Option.some.inj hs0
      subst heq
      exact ⟨some (resolveLimits f.plot_data a s), hres⟩

/-- Witness for C7 (amended): on a concrete figure, the series list is
untouched and the explicitly-limited bottom axis is returned unchanged. -/
theorem compile_mutates_only_unset_limits_witness :
    (figMut.get_latex_code).1.plot_data = figMut.plot_data ∧
    (figMut.get_latex_code).1.axes.get Axis.b =
      some { label := "x", limits := some (0, 1) } :=
  ⟨(compile_mutates_only_unset_limits figMut Axis.b
      { label := "x", limits := some (0, 1) } (by decide)).2.2.2.2.2.2.2.1,
   (compile_mutates_only_unset_limits figMut Axis.b
      { label := "x", limits := some (0, 1) } (by decide)).2.2.2.2.2.2.2.2.2.1
      (by decide)⟩

/-!  Claim C9: configured-but-unused axis. -/

/-- A configured right axis with `limits = None` and no series bound to it
(the shape of the repository's own `test_crlb`/`test_s_par` fixtures). -/
def figUnused : Figure :=
  let f0 := Figure.new "unused"
  let f1 : Figure := { f0 with
    axes := ((f0.axes.set Axis.b (some {})).set Axis.l (some {})).set Axis.r (some {}) }
  f1.add { ax := Axis.b, ay := Axis.l, dx := [0, 1], dy := [3, 4] }

/-- Counterexample to C9: validation does not fail for a configured axis with
no bound series — it silently resolves the degenerate limits
`(sys.float_info.max, -sys.float_info.min)` and emission proceeds. -/
theorem unused_axis_no_failure :
    (figUnused.validate).2 = none ∧
    (figUnused.validate).1.axes.get Axis.r = some { limits := some (DBL_MAX, -DBL_MIN) } ∧
    (figUnused.get_latex_code).2.isOk = true := by
  decide

/-- Claim C9 (amended): compilation does not fail on a configured axis slot
with unset limits and no bound series; the resolver leaves the running
min/max at their starting values, so the slot's limits become the degenerate
pair `(sys.float_info.max, -sys.float_info.min)`. -/
theorem unused_axis_degenerate_limits (f f2 : Figure) (a : Axis) (s : AxisSetup)
    (hs : f.axes.get a = some s) (hl : s.limits = none)
    (hnb : ∀ d ∈ f.plot_data, d.ax ≠ a ∧ d.ay ≠ a)
    (hv : f.validate = (f2, none)) :
    f2.axes.get a = some { s with limits := some (DBL_MAX, -DBL_MIN) } := by
  rcases hdc : dataCheck f with _ | e
  · have hv2 : validateAxes f axisOrder = (f2, none) := by
      rw [Figure.validate, hdc] at hv
      exact hv
    rcases validateAxes_axes_get axisOrder f a with h1 | ⟨s0, hs0, hl0, hres⟩
    · rw [hv2] at h1
      have hbad := validateAxes_success_limits axisOrder f f2 hv2 a (mem_axisOrder a) s
        (by rw [h1, hs])
      exact absurd hl hbad
    · rw [hs] at hs0
      have heq := Option.some.inj hs0
      subst heq
      rw [hv2] at hres
      rw [hres, resolveLimits_no_series f.plot_data a s hnb]
  · rw [Figure.validate, hdc] at hv
    have hsnd := congrArg Prod.snd hv
    simp at hsnd

/-- Witness for C9 (amended): the concrete unused right axis resolves to the
degenerate limits via the amended theorem. -/
theorem unused_axis_degenerate_limits_witness :
    ((figUnused.validate).1).axes.get Axis.r =
      some { limits := some (DBL_MAX, -DBL_MIN) } :=
  unused_axis_degenerate_limits figUnused (figUnused.validate).1 Axis.r {}
    (by decide) rfl (by decide) rfl

/-!  Claim C4: the widened restriction domain. -/

/-- Claim C4: for a non-logarithmic y-axis with limits `(lo, hi)`, the emitted
plot command carries a restriction domain widened outward from zero by the
overscale limit 1e10 (`lo/1e10` if `lo>0` else `lo*1e10`; `hi*1e10` if `hi>0`
else `hi/1e10`) while the plot inset's `ymin`/`ymax` stay the exact limits;
for a logarithmic y-axis no restriction domain is computed or emitted. -/
theorem restrict_domain_policy (fig : Figure) (ax ay : Axis) (asy : AxisSetup)
    (lo hi : ℚ) (d : Data)
    (hy : fig.axes.get ay = some asy) (hlim : asy.limits = some (lo, hi)) :
    (asy.log = false →
      get_y_domain asy =
        some (if 0 < lo then lo / overscale_limit else lo * overscale_limit,
              if 0 < hi then hi * overscale_limit else hi / overscale_limit) ∧
      ("  " ++ ("restrict y to domain=\x7b" ++
          fmtFlt (if 0 < lo then lo / overscale_limit else lo * overscale_limit) ++ ":" ++
          fmtFlt (if 0 < hi then hi * overscale_limit else hi / overscale_limit) ++ "\x7d") ++ ",")
        ∈ create_plot_content fig ax ay d) ∧
    (asy.log = true →
      get_y_domain asy = none ∧
      create_plot_content fig ax ay d = create_plot_content_aux fig ax ay d none) ∧
    ("  " ++ ("ymin=" ++ fmtFlt lo) ++ ",") ∈ create_plot_begin fig ax ay ∧
    ("  " ++ ("ymax=" ++ fmtFlt hi) ++ ",") ∈ create_plot_begin fig ax ay := by
  have hcontent : create_plot_content fig ax ay d =
      create_plot_content_aux fig ax ay d (get_y_domain asy) := by
    simp [create_plot_content, hy]
  refine ⟨fun hlog => ?_, fun hlog => ?_, ?_, ?_⟩
  · have hdom : get_y_domain asy =
        some (if 0 < lo then lo / overscale_limit else lo * overscale_limit,
              if 0 < hi then hi * overscale_limit else hi / overscale_limit) := by
      simp [get_y_domain, hlim, hlog, qdiv_eq, qmul_eq]
    refine ⟨hdom, ?_⟩
    rw [hcontent, hdom]
    simp [create_plot_content_aux]
  · have hdom : get_y_domain asy = none := by
      simp [get_y_domain, hlim, hlog]
    refine ⟨hdom, ?_⟩
    rw [hcontent, hdom]
  · simp [create_plot_begin, hy, hlim]
  · simp [create_plot_begin, hy, hlim]

/-- A concrete non-logarithmic figure for the C4 witness. -/
def figDom : Figure :=
  let f0 := Figure.new "dom"
  let f1 : Figure := { f0 with
    axes := (f0.axes.set Axis.b (some { limits := some (0, 1) })).set
      Axis.l (some { limits := some (-2, 5) }) }
  f1.add { ax := Axis.b, ay := Axis.l, dx := [0, 1], dy := [-1, 4] }

/-- The series of `figDom` as constructed by `Figure.add`. -/
def figDomSeries : Data :=
  { ax := Axis.b, ay := Axis.l, dx := [0, 1], dy := [-1, 4], _id := some 0 }

/-- Witness for C4: with limits `(-2, 5)` the restriction domain is
`(-2e10, 5e10)` while `ymin`/`ymax` stay `-2` and `5`. -/
theorem restrict_domain_policy_witness :
    get_y_domain { limits := some (-2, 5) } =
      some (if 0 < (-2 : ℚ) then -2 / overscale_limit else -2 * overscale_limit,
            if 0 < (5 : ℚ) then 5 * overscale_limit else 5 / overscale_limit) ∧
    ("  " ++ ("restrict y to domain=\x7b" ++
        fmtFlt (if 0 < (-2 : ℚ) then -2 / overscale_limit else -2 * overscale_limit) ++ ":" ++
        fmtFlt (if 0 < (5 : ℚ) then 5 * overscale_limit else 5 / overscale_limit) ++ "\x7d") ++ ",")
      ∈ create_plot_content figDom Axis.b Axis.l figDomSeries :=
  (restrict_domain_policy figDom Axis.b Axis.l { limits := some (-2, 5) } (-2) 5
    figDomSeries (by decide) rfl).1 rfl

/-!  Line classification for the emitted document: a line opens an inset iff
it starts with the `axis` environment opener; a line is a legend entry iff it
starts with the legend-image command. -/

/-- Does the line open an inset (starts with the `axis` environment opener)? -/
def lineIsAxisBegin (s : String) : Bool :=
  match s.data with
  | '\\' :: 'b' :: 'e' :: 'g' :: 'i' :: 'n' :: '\x7b' :: 'a' :: 'x' :: 'i' :: 's' :: '\x7d' :: _ =>
      true
  | _ => false

/-- Is the line a legend entry (starts with the legend-image command)? -/
def lineIsLegendEntry (s : String) : Bool :=
  match s.data with
  | '\\' :: 'a' :: 'd' :: 'd' :: 'l' :: 'e' :: 'g' :: 'e' :: 'n' :: 'd' :: 'i' :: 'm' :: 'a' :: 'g' :: 'e' :: _ =>
      true
  | _ => false

/-- Number of insets opened in a line sequence. -/
def axisInsetCount (lines : List String) : Nat :=
  lines.countP (fun s => lineIsAxisBegin s)

/-- Number of plot-and-data-table commands in a line sequence. -/
def addplotCount (lines : List String) : Nat :=
  lines.countP (fun s => s == "\\addplot [")

/-- Number of configured axis slots of a figure. -/
def numConfigured (f : Figure) : Nat :=
  (axisOrder.filter (fun a => (f.axes.get a).isSome)).length

theorem lineIsAxisBegin_sp2 (a b : String) : lineIsAxisBegin ("  " ++ a ++ b) = false := by
  cases a
  cases b
  rfl

theorem lineIsAxisBegin_sp3 (a b c : String) :
    lineIsAxisBegin ("  " ++ a ++ b ++ c) = false := by
  cases a
  cases b
  cases c
  rfl

theorem lineIsAxisBegin_beginpct (c s : String) :
    lineIsAxisBegin ("\\begin\x7baxis\x7d% " ++ c ++ s) = true := by
  cases c
  cases s
  rfl

theorem lineIsAxisBegin_label (t u : String) :
    lineIsAxisBegin ("\\label\x7bdplot:" ++ t ++ u) = false := by
  cases t
  cases u
  rfl

theorem lineIsAxisBegin_group_comment (a b c d : String) :
    lineIsAxisBegin ("% plot group " ++ a ++ b ++ c ++ d) = false := by
  cases a
  cases b
  cases c
  cases d
  rfl

theorem lineIsAxisBegin_legend_entry (t u : String) :
    lineIsAxisBegin ("\\addlegendimage\x7b/pgfplots/refstyle=dplot:" ++ t ++
      "\x7d\\addlegendentry\x7b" ++ u ++ "\x7d") = false := by
  cases t
  cases u
  rfl

theorem lineIsLegendEntry_entry (t u : String) :
    lineIsLegendEntry ("\\addlegendimage\x7b/pgfplots/refstyle=dplot:" ++ t ++
      "\x7d\\addlegendentry\x7b" ++ u ++ "\x7d") = true := by
  cases t
  cases u
  rfl

theorem lineIsLegendEntry_sp2 (a b : String) :
    lineIsLegendEntry ("  " ++ a ++ b) = false := by
  cases a
  cases b
  rfl

theorem lineIsLegendEntry_sp3 (a b c : String) :
    lineIsLegendEntry ("  " ++ a ++ b ++ c) = false := by
  cases a
  cases b
  cases c
  rfl

theorem lineIsLegendEntry_beginpct (c s : String) :
    lineIsLegendEntry ("\\begin\x7baxis\x7d% " ++ c ++ s) = false := by
  cases c
  cases s
  rfl

theorem lineIsLegendEntry_label (t u : String) :
    lineIsLegendEntry ("\\label\x7bdplot:" ++ t ++ u) = false := by
  cases t
  cases u
  rfl

theorem lineIsLegendEntry_group_comment (a b c d : String) :
    lineIsLegendEntry ("% plot group " ++ a ++ b ++ c ++ d) = false := by
  cases a
  cases b
  cases c
  cases d
  rfl

theorem lineIsLegendEntry_figwidth (a : String) :
    lineIsLegendEntry ("\\setlength\\figurewidth\x7b" ++ a ++ "\x7d") = false := by
  cases a
  rfl

theorem lineIsLegendEntry_figheight (a : String) :
    lineIsLegendEntry ("\\setlength\\figureheight\x7b" ++ a ++ "\x7d") = false := by
  cases a
  rfl

theorem lineIsLegendEntry_pgfplotsset (a b : String) :
    lineIsLegendEntry
      ("\\pgfplotsset\x7bevery axis/.append style=\x7b" ++ a ++ b) = false := by
  cases a
  cases b
  rfl

theorem beq_addplot_sp2 (a b : String) : (("  " ++ a ++ b) == "\\addplot [") = false := by
  cases a
  cases b
  rfl

theorem beq_addplot_sp3 (a b c : String) :
    (("  " ++ a ++ b ++ c) == "\\addplot [") = false := by
  cases a
  cases b
  cases c
  rfl

theorem beq_addplot_label (t u : String) :
    (("\\label\x7bdplot:" ++ t ++ u) == "\\addplot [") = false := by
  cases t
  cases u
  rfl

theorem beq_addplot_group_comment (a b c d : String) :
    (("% plot group " ++ a ++ b ++ c ++ d) == "\\addplot [") = false := by
  cases a
  cases b
  cases c
  cases d
  rfl

theorem beq_addplot_beginpct (c s : String) :
    (("\\begin\x7baxis\x7d% " ++ c ++ s) == "\\addplot [") = false := by
  cases c
  cases s
  rfl

/-!  Inset counts of the individual emitter components. -/

theorem countP_params_axisBegin (ps : List String) :
    (ps.map (fun p => "  " ++ p ++ ",")).countP (fun s => lineIsAxisBegin s) = 0 := by
  induction ps with
  | nil => rfl
  | cons p rest ih =>
      rw [List.map_cons, List.countP_cons, ih, lineIsAxisBegin_sp2]
      rfl

theorem axisInsetCount_paddingFor (fig : Figure) (a : Axis) :
    axisInsetCount (paddingFor fig a) = if (fig.axes.get a).isSome then 1 else 0 := by
  rcases h : fig.axes.get a with _ | s
  · simp [paddingFor, h, axisInsetCount]
  · rw [paddingFor, h]
    simp only [Option.isSome_some, if_true]
    rw [axisInsetCount, List.countP_append, List.countP_append,
      countP_params_axisBegin, List.countP_cons, List.countP_cons,
      lineIsAxisBegin_beginpct]
    decide

theorem axisInsetCount_padding (fig : Figure) :
    axisInsetCount (create_padding fig) = numConfigured fig := by
  have key : ∀ l : List Axis,
      List.countP (fun s => lineIsAxisBegin s) ((l.map (paddingFor fig)).flatten) =
        (l.filter (fun a => (fig.axes.get a).isSome)).length := by
    intro l
    induction l with
    | nil => rfl
    | cons a rest ih =>
        rw [List.map_cons, List.flatten_cons, List.countP_append, ih]
        have hp := axisInsetCount_paddingFor fig a
        rw [axisInsetCount] at hp
        rw [hp, List.filter_cons]
        rcases h : (fig.axes.get a).isSome with _ | _
        · simp [h]
        · simp [h, Nat.add_comm]
  rw [create_padding, axisInsetCount, List.countP_append, key, numConfigured]
  have h1 : List.countP (fun s => lineIsAxisBegin s)
      ["", "%%%%%%%%%%%", "% padding %", "%%%%%%%%%%%"] = 0 := by decide
  rw [h1]
  omega

theorem axisInsetCount_backgroundFor (fig : Figure) (a : Axis) (s : AxisSetup)
    (applied : Bool) : axisInsetCount (backgroundFor fig a s applied) = 1 := by
  rw [backgroundFor]
  rcases applied with _ | _ <;>
    · rw [axisInsetCount, List.countP_append, List.countP_append,
        countP_params_axisBegin, List.countP_cons, List.countP_cons,
        lineIsAxisBegin_beginpct]
      decide

theorem axisInsetCount_backgroundLoop (fig : Figure) (l : List Axis) (applied : Bool) :
    axisInsetCount (backgroundLoop fig l applied) =
      (l.filter (fun a => (fig.axes.get a).isSome)).length := by
  induction l generalizing applied with
  | nil => rfl
  | cons a rest ih =>
      rcases h : fig.axes.get a with _ | s
      · rw [backgroundLoop, h, ih applied, List.filter_cons]
        simp [h]
      · rw [backgroundLoop, h, axisInsetCount, List.countP_append]
        have hb := axisInsetCount_backgroundFor fig a s applied
        rw [axisInsetCount] at hb
        have ht := ih true
        rw [axisInsetCount] at ht
        rw [hb, ht, List.filter_cons]
        simp [h, Nat.add_comm]

theorem axisInsetCount_background (fig : Figure) :
    axisInsetCount (create_background fig) = numConfigured fig := by
  rw [create_background, axisInsetCount, List.countP_append]
  have hl := axisInsetCount_backgroundLoop fig axisOrder false
  rw [axisInsetCount] at hl
  rw [hl, numConfigured]
  have h1 : List.countP (fun s => lineIsAxisBegin s)
      ["", "%%%%%%%%%%%%%%", "% background %", "%%%%%%%%%%%%%%"] = 0 := by decide
  rw [h1]
  omega

theorem axisInsetCount_overlayFor (fig : Figure) (a : Axis) :
    axisInsetCount (overlayFor fig a) = if (fig.axes.get a).isSome then 1 else 0 := by
  rcases h : fig.axes.get a with _ | s
  · simp [overlayFor, h, axisInsetCount]
  · rw [overlayFor, h]
    simp only [Option.isSome_some, if_true]
    rw [axisInsetCount, List.countP_append, List.countP_append,
      countP_params_axisBegin, List.countP_cons, List.countP_cons,
      lineIsAxisBegin_beginpct]
    decide

theorem axisInsetCount_overlay (fig : Figure) :
    axisInsetCount (create_overlay fig) = numConfigured fig := by
  have key : ∀ l : List Axis,
      List.countP (fun s => lineIsAxisBegin s) ((l.map (overlayFor fig)).flatten) =
        (l.filter (fun a => (fig.axes.get a).isSome)).length := by
    intro l
    induction l with
    | nil => rfl
    | cons a rest ih =>
        rw [List.map_cons, List.flatten_cons, List.countP_append, ih]
        have hp := axisInsetCount_overlayFor fig a
        rw [axisInsetCount] at hp
        rw [hp, List.filter_cons]
        rcases h : (fig.axes.get a).isSome with _ | _
        · simp [h]
        · simp [h, Nat.add_comm]
  rw [create_overlay, axisInsetCount, List.countP_append, key, numConfigured]
  have h1 : List.countP (fun s => lineIsAxisBegin s)
      ["", "%%%%%%%%%%%", "% overlay %", "%%%%%%%%%%%"] = 0 := by decide
  rw [h1]
  omega

theorem countP_rows_axisBegin (xs : List (ℚ × ℚ)) :
    (xs.map (fun xy => "  " ++ fmtFlt xy.1 ++ " " ++ fmtFlt xy.2)).countP
      (fun s => lineIsAxisBegin s) = 0 := by
  induction xs with
  | nil => rfl
  | cons xy rest ih =>
      rw [List.map_cons, List.countP_cons, ih, lineIsAxisBegin_sp3]
      rfl

theorem axisInsetCount_plot_content (fig : Figure) (ax ay : Axis) (d : Data) :
    axisInsetCount (create_plot_content fig ax ay d) = 0 := by
  rw [create_plot_content]
  simp only [create_plot_content_aux]
  rw [axisInsetCount, List.countP_append, List.countP_append, List.countP_append,
    List.countP_append, List.countP_append, List.countP_append,
    countP_params_axisBegin, countP_params_axisBegin, countP_rows_axisBegin]
  simp only [List.countP_cons, List.countP_nil, lineIsAxisBegin_label]
  decide

theorem axisInsetCount_plot_begin (fig : Figure) (ax ay : Axis) :
    axisInsetCount (create_plot_begin fig ax ay) = 1 := by
  rw [create_plot_begin]
  rw [axisInsetCount, List.countP_append, List.countP_append,
    countP_params_axisBegin]
  decide

theorem axisInsetCount_plot_contents (fig : Figure) (ax ay : Axis) (ds : List Data) :
    axisInsetCount ((ds.map (create_plot_content fig ax ay)).flatten) = 0 := by
  induction ds with
  | nil => rfl
  | cons d rest ih =>
      rw [List.map_cons, List.flatten_cons, axisInsetCount, List.countP_append]
      have hc := axisInsetCount_plot_content fig ax ay d
      rw [axisInsetCount] at hc
      have ht := ih
      rw [axisInsetCount] at ht
      rw [hc, ht]

theorem axisInsetCount_plot_group (fig : Figure) (ax ay : Axis) :
    axisInsetCount (create_plot_group fig ax ay) =
      if (seriesFor fig ax ay).length = 0 then 0 else 1 := by
  have hhdr : List.countP (fun s => lineIsAxisBegin s)
      ["", "%%%%%%%%%%%%%%%%%%",
       "% plot group " ++ ax.char ++ "/" ++ ay.char ++ " %",
       "%%%%%%%%%%%%%%%%%%"] = 0 := by
    rw [List.countP_cons, List.countP_cons, List.countP_cons, List.countP_cons,
      List.countP_nil, lineIsAxisBegin_group_comment]
    decide
  rw [create_plot_group, axisInsetCount, List.countP_append, hhdr]
  by_cases h : (seriesFor fig ax ay).length > 0
  · rw [if_pos h, if_neg (by omega)]
    rw [List.countP_append, List.countP_append]
    have hb := axisInsetCount_plot_begin fig ax ay
    rw [axisInsetCount] at hb
    have hc := axisInsetCount_plot_contents fig ax ay (seriesFor fig ax ay)
    rw [axisInsetCount] at hc
    rw [hb, hc]
    decide
  · rw [if_neg h, if_pos (by omega)]
    rfl

theorem countP_params_addplot (ps : List String) :
    (ps.map (fun p => "  " ++ p ++ ",")).countP (fun s => s == "\\addplot [") = 0 := by
  induction ps with
  | nil => rfl
  | cons p rest ih =>
      rw [List.map_cons, List.countP_cons, ih, beq_addplot_sp2]
      rfl

theorem countP_rows_addplot (xs : List (ℚ × ℚ)) :
    (xs.map (fun xy => "  " ++ fmtFlt xy.1 ++ " " ++ fmtFlt xy.2)).countP
      (fun s => s == "\\addplot [") = 0 := by
  induction xs with
  | nil => rfl
  | cons xy rest ih =>
      rw [List.map_cons, List.countP_cons, ih, beq_addplot_sp3]
      rfl

theorem addplotCount_plot_content (fig : Figure) (ax ay : Axis) (d : Data) :
    addplotCount (create_plot_content fig ax ay d) = 1 := by
  rw [create_plot_content]
  simp only [create_plot_content_aux]
  rw [addplotCount, List.countP_append, List.countP_append, List.countP_append,
    List.countP_append, List.countP_append, List.countP_append,
    countP_params_addplot, countP_params_addplot, countP_rows_addplot]
  simp only [List.countP_cons, List.countP_nil, beq_addplot_label]
  decide

theorem addplotCount_plot_begin (fig : Figure) (ax ay : Axis) :
    addplotCount (create_plot_begin fig ax ay) = 0 := by
  rw [create_plot_begin]
  rw [addplotCount, List.countP_append, List.countP_append, countP_params_addplot]
  decide

theorem addplotCount_plot_contents (fig : Figure) (ax ay : Axis) (ds : List Data) :
    addplotCount ((ds.map (create_plot_content fig ax ay)).flatten) = ds.length := by
  induction ds with
  | nil => rfl
  | cons d rest ih =>
      rw [List.map_cons, List.flatten_cons, addplotCount, List.countP_append]
      have hc := addplotCount_plot_content fig ax ay d
      rw [addplotCount] at hc
      have ht := ih
      rw [addplotCount] at ht
      rw [hc, ht, List.length_cons]
      omega

theorem addplotCount_plot_group (fig : Figure) (ax ay : Axis) :
    addplotCount (create_plot_group fig ax ay) = (seriesFor fig ax ay).length := by
  have hhdr : List.countP (fun s => s == "\\addplot [")
      ["", "%%%%%%%%%%%%%%%%%%",
       "% plot group " ++ ax.char ++ "/" ++ ay.char ++ " %",
       "%%%%%%%%%%%%%%%%%%"] = 0 := by
    rw [List.countP_cons, List.countP_cons, List.countP_cons, List.countP_cons,
      List.countP_nil, beq_addplot_group_comment]
    decide
  rw [create_plot_group, addplotCount, List.countP_append, hhdr]
  by_cases h : (seriesFor fig ax ay).length > 0
  · rw [if_pos h]
    rw [List.countP_append, List.countP_append]
    have hb := addplotCount_plot_begin fig ax ay
    rw [addplotCount] at hb
    have hc := addplotCount_plot_contents fig ax ay (seriesFor fig ax ay)
    rw [addplotCount] at hc
    rw [hb, hc]
    have he : List.countP (fun s => s == "\\addplot [") create_plot_end = 0 := by decide
    rw [he]
    omega
  · rw [if_neg h, List.countP_nil]
    omega

/-!  Claim C5: structure and order of the emitted document. -/

/-- End-to-end scenario 1 of the spec: bottom label "x", left label "y", one
series with x = [-2,-1,0,1,2], y = [5,1,0,1,5]. -/
def figBL : Figure :=
  let f0 := Figure.new "scenario1"
  let f1 : Figure := { f0 with
    axes := (f0.axes.set Axis.b (some { label := "x" })).set Axis.l
      (some { label := "y" }) }
  f1.add { ax := Axis.b, ay := Axis.l, dx := [-2, -1, 0, 1, 2], dy := [5, 1, 0, 1, 5] }

/-- Claim C5: the document is, in order, preamble, one padding inset per
configured slot, one background inset per configured slot, one plot inset per
(x-slot, y-slot) pair with at least one series (none for empty pairs, one
plot-and-data-table command per series), one overlay inset per configured
slot, a legend inset only when enabled, and the footer; on scenario 1 the
(bottom,left) group is exactly one inset holding a 5-row data table of the
given values and the other three pairs hold no series. -/
theorem emitted_document_structure (f : Figure) :
    latexExec f =
      create_doc_begin f ++ create_padding f ++ create_background f ++
        create_plot_group f Axis.t Axis.l ++ create_plot_group f Axis.t Axis.r ++
        create_plot_group f Axis.b Axis.l ++ create_plot_group f Axis.b Axis.r ++
        create_overlay f ++
        (if f.legend_setup.enable then create_legend f else []) ++
        create_doc_end ∧
    axisInsetCount (create_padding f) = numConfigured f ∧
    axisInsetCount (create_background f) = numConfigured f ∧
    axisInsetCount (create_overlay f) = numConfigured f ∧
    (∀ ax ay : Axis, axisInsetCount (create_plot_group f ax ay) =
      if (seriesFor f ax ay).length = 0 then 0 else 1) ∧
    (∀ ax ay : Axis, addplotCount (create_plot_group f ax ay) =
      (seriesFor f ax ay).length) ∧
    create_plot_group (figBL.validate).1 Axis.b Axis.l =
      ["",
     "%%%%%%%%%%%%%%%%%%",
     "% plot group b/l %",
     "%%%%%%%%%%%%%%%%%%",
     "\\begin\x7baxis\x7d",
     "[",
     "  scale only axis,",
     "  width=5cm,",
     "  height=5cm,",
     "  xmin=-2.00000000000000000000e+00,",
     "  xmax=2.00000000000000000000e+00,",
     "  ymin=0.00000000000000000000e+00,",
     "  ymax=5.00000000000000000000e+00,",
     "  xmode=linear,",
     "  log basis x=10,",
     "  ymode=linear,",
     "  log basis y=10,",
     "  hide x axis=true,",
     "  hide y axis=true,",
     "  xtick=\\empty,",
     "  ytick=\\empty,",
     "]",
     "\\addplot [",
     "  color=black,",
     "  solid,",
     "  line width=1pt,",
     "  mark=,",
     "  mark repeat=1,",
     "  mark phase=0,",
     "  mark options=\x7bsolid\x7d,",
     "  no markers,",
     "  restrict y to domain=\x7b0.00000000000000000000e+00:5.00000000000000000000e+10\x7d,",
     "] table [",
     "  row sep=newline,",
     "  x expr=\\thisrowno\x7b0\x7d*1.00000000000000000000e+00,",
     "  y expr=\\thisrowno\x7b1\x7d*1.00000000000000000000e+00,",
     "]\x7b",
     "  -2.00000000000000000000e+00 5.00000000000000000000e+00",
     "  -1.00000000000000000000e+00 1.00000000000000000000e+00",
     "  0.00000000000000000000e+00 0.00000000000000000000e+00",
     "  1.00000000000000000000e+00 1.00000000000000000000e+00",
     "  2.00000000000000000000e+00 5.00000000000000000000e+00",
     "\x7d;",
     "\\label\x7bdplot:0\x7d",
     "\\end\x7baxis\x7d"] ∧
    seriesFor (figBL.validate).1 Axis.t Axis.l = [] ∧
    seriesFor (figBL.validate).1 Axis.t Axis.r = [] ∧
    seriesFor (figBL.validate).1 Axis.b Axis.r = [] := by
  refine ⟨rfl, axisInsetCount_padding f, axisInsetCount_background f,
    axisInsetCount_overlay f, fun ax ay => axisInsetCount_plot_group f ax ay,
    fun ax ay => addplotCount_plot_group f ax ay, by decide, by decide, by decide,
    by decide⟩

/-!  Claim C10: sequential series identity and legend cross-references. -/

theorem foldl_add_ids (ds : List Data) (f0 : Figure) :
    ((ds.foldl Figure.add f0).plot_data.map (fun d => d._id)) =
      f0.plot_data.map (fun d => d._id) ++
        (List.range' f0._data_counter ds.length).map some := by
  induction ds generalizing f0 with
  | nil => simp
  | cons d rest ih =>
      rw [List.foldl_cons, ih]
      simp only [Figure.add, List.map_append, List.map_cons, List.length_cons]
      rw [List.range'_succ, List.map_cons]
      simp

theorem filter_cons_false (p : String → Bool) (a : String) (l : List String)
    (h : p a = false) : (a :: l).filter p = l.filter p := by
  simp [List.filter_cons, h]

theorem filter_cons_true (p : String → Bool) (a : String) (l : List String)
    (h : p a = true) : (a :: l).filter p = a :: l.filter p := by
  simp [List.filter_cons, h]

theorem filter_legend_params (ps : List String) :
    (ps.map (fun p => "  " ++ p ++ ",")).filter (fun s => lineIsLegendEntry s) = [] := by
  induction ps with
  | nil => rfl
  | cons p rest ih =>
      rw [List.map_cons, filter_cons_false _ _ _ (lineIsLegendEntry_sp2 p ","), ih]

theorem filter_legend_rows (xs : List (ℚ × ℚ)) :
    (xs.map (fun xy => "  " ++ fmtFlt xy.1 ++ " " ++ fmtFlt xy.2)).filter
      (fun s => lineIsLegendEntry s) = [] := by
  induction xs with
  | nil => rfl
  | cons xy rest ih =>
      rw [List.map_cons, filter_cons_false _ _ _ (lineIsLegendEntry_sp3 _ _ _), ih]

theorem filter_legend_doc_begin (fig : Figure) :
    (create_doc_begin fig).filter (fun s => lineIsLegendEntry s) = [] := by
  rw [create_doc_begin, List.filter_append, List.filter_append, List.filter_append]
  rw [show (LatexCmdsDocClass.filter (fun s => lineIsLegendEntry s)) = [] from by decide]
  rw [show (LatexCmdsAfterDocClass.filter (fun s => lineIsLegendEntry s)) = [] from by
    decide]
  rw [show (["%%%%%%%%%%%%%%%%%%%%%%%%%%%%%%", "% auto-generated using dplot %",
    "%%%%%%%%%%%%%%%%%%%%%%%%%%%%%%"].filter (fun s => lineIsLegendEntry s)) = []
    from by decide]
  rw [filter_cons_false _ _ _ rfl,
    filter_cons_false _ _ _ (lineIsLegendEntry_figwidth fig.width),
    filter_cons_false _ _ _ (lineIsLegendEntry_figheight fig.height),
    filter_cons_false _ _ _ rfl,
    filter_cons_false _ _ _ (lineIsLegendEntry_pgfplotsset fig.basic_thickness _)]
  rfl

theorem filter_legend_paddingFor (fig : Figure) (a : Axis) :
    (paddingFor fig a).filter (fun s => lineIsLegendEntry s) = [] := by
  rcases h : fig.axes.get a with _ | s
  · simp [paddingFor, h]
  · rw [paddingFor, h]
    rw [List.filter_append, List.filter_append, filter_legend_params]
    rw [filter_cons_false _ _ _ (lineIsLegendEntry_beginpct _ _),
      filter_cons_false _ _ _ rfl]
    decide

theorem filter_legend_padding (fig : Figure) :
    (create_padding fig).filter (fun s => lineIsLegendEntry s) = [] := by
  have key : ∀ l : List Axis,
      ((l.map (paddingFor fig)).flatten).filter (fun s => lineIsLegendEntry s) = [] := by
    intro l
    induction l with
    | nil => rfl
    | cons a rest ih =>
        rw [List.map_cons, List.flatten_cons, List.filter_append,
          filter_legend_paddingFor, ih]
        rfl
  rw [create_padding, List.filter_append, key]
  decide

theorem filter_legend_backgroundFor (fig : Figure) (a : Axis) (s : AxisSetup)
    (applied : Bool) :
    (backgroundFor fig a s applied).filter (fun s => lineIsLegendEntry s) = [] := by
  rw [backgroundFor]
  rcases applied with _ | _ <;>
    · rw [List.filter_append, List.filter_append, filter_legend_params]
      rw [filter_cons_false _ _ _ (lineIsLegendEntry_beginpct _ _),
        filter_cons_false _ _ _ rfl]
      decide

theorem filter_legend_background (fig : Figure) :
    (create_background fig).filter (fun s => lineIsLegendEntry s) = [] := by
  have key : ∀ (l : List Axis) (applied : Bool),
      (backgroundLoop fig l applied).filter (fun s => lineIsLegendEntry s) = [] := by
    intro l
    induction l with
    | nil => intro applied; rfl
    | cons a rest ih =>
        intro applied
        rcases h : fig.axes.get a with _ | s
        · rw [backgroundLoop, h]
          exact ih applied
        · rw [backgroundLoop, h, List.filter_append, filter_legend_backgroundFor,
            ih true]
          rfl
  rw [create_background, List.filter_append, key]
  decide

theorem filter_legend_overlayFor (fig : Figure) (a : Axis) :
    (overlayFor fig a).filter (fun s => lineIsLegendEntry s) = [] := by
  rcases h : fig.axes.get a with _ | s
  · simp [overlayFor, h]
  · rw [overlayFor, h]
    rw [List.filter_append, List.filter_append, filter_legend_params]
    rw [filter_cons_false _ _ _ (lineIsLegendEntry_beginpct _ _),
      filter_cons_false _ _ _ rfl]
    decide

theorem filter_legend_overlay (fig : Figure) :
    (create_overlay fig).filter (fun s => lineIsLegendEntry s) = [] := by
  have key : ∀ l : List Axis,
      ((l.map (overlayFor fig)).flatten).filter (fun s => lineIsLegendEntry s) = [] := by
    intro l
    induction l with
    | nil => rfl
    | cons a rest ih =>
        rw [List.map_cons, List.flatten_cons, List.filter_append,
          filter_legend_overlayFor, ih]
        rfl
  rw [create_overlay, List.filter_append, key]
  decide

theorem filter_legend_plot_content (fig : Figure) (ax ay : Axis) (d : Data) :
    (create_plot_content fig ax ay d).filter (fun s => lineIsLegendEntry s) = [] := by
  rw [create_plot_content]
  simp only [create_plot_content_aux]
  rw [List.filter_append, List.filter_append, List.filter_append,
    List.filter_append, List.filter_append, List.filter_append,
    filter_legend_params, filter_legend_params, filter_legend_rows]
  rw [filter_cons_false _ _ _ rfl]
  rw [show (["] table ["].filter (fun s => lineIsLegendEntry s)) = [] from by decide]
  rw [show (["]\x7b"].filter (fun s => lineIsLegendEntry s)) = [] from by decide]
  rw [filter_cons_false _ _ _ rfl,
    filter_cons_false _ _ _ (lineIsLegendEntry_label _ _)]
  rfl

theorem filter_legend_plot_group (fig : Figure) (ax ay : Axis) :
    (create_plot_group fig ax ay).filter (fun s => lineIsLegendEntry s) = [] := by
  have key : ∀ ds : List Data,
      ((ds.map (create_plot_content fig ax ay)).flatten).filter
        (fun s => lineIsLegendEntry s) = [] := by
    intro ds
    induction ds with
    | nil => rfl
    | cons d rest ih =>
        rw [List.map_cons, List.flatten_cons, List.filter_append,
          filter_legend_plot_content, ih]
        rfl
  rw [create_plot_group, List.filter_append]
  have hhdr : (["", "%%%%%%%%%%%%%%%%%%",
      "% plot group " ++ ax.char ++ "/" ++ ay.char ++ " %",
      "%%%%%%%%%%%%%%%%%%"]).filter (fun s => lineIsLegendEntry s) = [] := by
    rw [filter_cons_false _ _ _ rfl, filter_cons_false _ _ _ rfl,
      filter_cons_false _ _ _ (lineIsLegendEntry_group_comment _ _ _ _)]
    decide
  rw [hhdr]
  by_cases h : (seriesFor fig ax ay).length > 0
  · rw [if_pos h, List.filter_append, List.filter_append, key]
    rw [create_plot_begin, List.filter_append, List.filter_append,
      filter_legend_params]
    rw [filter_cons_false _ _ _ rfl, filter_cons_false _ _ _ rfl]
    decide
  · rw [if_neg h]
    rfl

theorem lineIsLegendEntry_legendEntry (d : Data) :
    lineIsLegendEntry (legendEntry d) = true :=
  lineIsLegendEntry_entry (idStr d) _

theorem filter_legend_entries (ds : List Data) :
    (ds.map legendEntry).filter (fun s => lineIsLegendEntry s) = ds.map legendEntry := by
  induction ds with
  | nil => rfl
  | cons d rest ih =>
      rw [List.map_cons, filter_cons_true _ _ _ (lineIsLegendEntry_legendEntry d), ih]

theorem filter_legend_create_legend (fig : Figure) :
    (create_legend fig).filter (fun s => lineIsLegendEntry s) =
      fig.plot_data.map legendEntry := by
  rw [create_legend]
  rw [List.filter_append, List.filter_append, List.filter_append,
    List.filter_append, filter_legend_params, filter_legend_entries]
  rw [show (["", "%%%%%%%%%%", "% legend %", "%%%%%%%%%%", "\\begin\x7baxis\x7d",
    "["].filter (fun s => lineIsLegendEntry s)) = [] from by decide]
  rw [show (["]"].filter (fun s => lineIsLegendEntry s)) = [] from by decide]
  rw [show (["\\end\x7baxis\x7d"].filter (fun s => lineIsLegendEntry s)) = []
    from by decide]
  simp

theorem filter_legend_doc_end :
    (create_doc_end).filter (fun s => lineIsLegendEntry s) = [] := by
  decide

/-- The legend entries of the whole document: exactly one per series, in
insertion order, when the legend is enabled; none otherwise. -/
theorem filter_legend_latexExec (fig : Figure) :
    (latexExec fig).filter (fun s => lineIsLegendEntry s) =
      (if fig.legend_setup.enable then fig.plot_data.map legendEntry else []) := by
  rw [latexExec, List.filter_append, List.filter_append, List.filter_append,
    List.filter_append, List.filter_append, List.filter_append,
    List.filter_append, List.filter_append, List.filter_append,
    filter_legend_doc_begin, filter_legend_padding, filter_legend_background,
    filter_legend_plot_group, filter_legend_plot_group, filter_legend_plot_group,
    filter_legend_plot_group, filter_legend_overlay, filter_legend_doc_end]
  rcases h : fig.legend_setup.enable with _ | _
  · simp [h]
  · simp [h, filter_legend_create_legend]

/-- Claim C10: after n adds to a fresh figure the series carry ids 0..n-1 in
insertion order; the plot block of the series with id i carries the reference
label `dplot:i`; the legend, when enabled, holds exactly one entry per series
in insertion order, referencing `dplot:i` and showing the series label or the
decimal id when the label is empty. -/
theorem series_identity_and_legend (nm : String) (ds : List Data) (fig : Figure)
    (ax ay : Axis) (d : Data) (i : Nat) (hid : d._id = some i) :
    ((ds.foldl Figure.add (Figure.new nm)).plot_data.map (fun x => x._id) =
      (List.range ds.length).map some) ∧
    ("\\label\x7bdplot:" ++ natToStr i ++ "\x7d") ∈ create_plot_content fig ax ay d ∧
    legendEntry d =
      "\\addlegendimage\x7b/pgfplots/refstyle=dplot:" ++ natToStr i ++
        "\x7d\\addlegendentry\x7b" ++
        (if d.label.length > 0 then d.label else natToStr i) ++ "\x7d" ∧
    (fig.legend_setup.enable = true →
      (latexExec fig).filter (fun s => lineIsLegendEntry s) =
        fig.plot_data.map legendEntry) ∧
    (fig.legend_setup.enable = false →
      (latexExec fig).filter (fun s => lineIsLegendEntry s) = []) := by
  refine ⟨?_, ?_, ?_, ?_, ?_⟩
  · rw [foldl_add_ids]
    simp [Figure.new, List.range_eq_range']
  · rw [create_plot_content]
    simp only [create_plot_content_aux]
    simp [idStr, hid]
  · simp [legendEntry, idStr, hid]
  · intro h
    rw [filter_legend_latexExec, if_pos (by rw [h])]
  · intro h
    rw [filter_legend_latexExec, if_neg (by rw [h]; exact Bool.false_ne_true)]

/-- Two raw series for the C10 witness. -/
def wds : List Data :=
  [{ ax := Axis.b, ay := Axis.l, dx := [0], dy := [1] },
   { ax := Axis.b, ay := Axis.l, dx := [1], dy := [2], label := "s" }]

/-- The stored series of `figBL` (id 0, empty label). -/
def wSeries : Data :=
  { ax := Axis.b, ay := Axis.l, dx := [-2, -1, 0, 1, 2], dy := [5, 1, 0, 1, 5],
    _id := some 0 }

/-- Witness for C10: two adds to a fresh figure yield ids `[0, 1]`; the
`figBL` series' plot block carries `dplot:0`; its legend is enabled and holds
exactly its one entry showing the decimal id. -/
theorem series_identity_and_legend_witness :
    ((wds.foldl Figure.add (Figure.new "w")).plot_data.map (fun x => x._id) =
      (List.range wds.length).map some) ∧
    ("\\label\x7bdplot:" ++ natToStr 0 ++ "\x7d") ∈
      create_plot_content figBL Axis.b Axis.l wSeries ∧
    legendEntry wSeries =
      "\\addlegendimage\x7b/pgfplots/refstyle=dplot:" ++ natToStr 0 ++
        "\x7d\\addlegendentry\x7b" ++
        (if wSeries.label.length > 0 then wSeries.label else natToStr 0) ++ "\x7d" ∧
    (latexExec figBL).filter (fun s => lineIsLegendEntry s) =
      figBL.plot_data.map legendEntry :=
  ⟨(series_identity_and_legend "w" wds figBL Axis.b Axis.l wSeries 0 rfl).1,
   (series_identity_and_legend "w" wds figBL Axis.b Axis.l wSeries 0 rfl).2.1,
   (series_identity_and_legend "w" wds figBL Axis.b Axis.l wSeries 0 rfl).2.2.1,
   (series_identity_and_legend "w" wds figBL Axis.b Axis.l wSeries 0 rfl).2.2.2.1 rfl⟩

end DPlot
